import Mathlib

/-!
Shallow embedding of the sovereign-agent facade SDK
(`src/sovereign_agent/agent.py` and `src/sovereign_agent/quick.py`).

The facade composes four opaque external collaborators (capauth identity,
skmemory store, skchat messaging, skcomm transport).  Python's optional
module imports and exceptions are modelled explicitly:

* `Exc` models Python exceptions, distinguishing `ImportError` (which several
  handlers in the source catch selectively with `except ImportError`) from any
  other exception.
* `Env` records, for one call, which collaborator modules are importable and
  what result or exception each opaque collaborator call produces.
* Every operation threads an explicit `AgentState` and returns
  `Except Exc result × AgentState`; the state is returned even on the error
  path, mirroring Python where mutations performed before the raise persist.
* Ghost counters (`memCreations`, `histCreations`, `deliveryAttempts`) count
  constructor calls and delivery attempts; they change nothing observable and
  exist only to state memoization and no-delivery-attempted properties.

The memory collaborator (skmemory) is external to this repository; its
`snapshot` / `search` operations are modelled from the spec's contract
(section 6) as a pure record list.  All facade logic is translated from the
source.
-/

namespace SovereignAgent

/-- Python exception model: `ImportError` versus every other exception. -/
inductive Exc where
  | importError (msg : String)
  | runtimeError (msg : String)
deriving DecidableEq, Repr

/-- Whether an exception would be caught by `except ImportError`. -/
def Exc.isImportError : Exc → Bool
  | .importError _ => true
  | .runtimeError _ => false

/-- Whether an `Except` value is a normal return. -/
def excIsOk {α : Type} : Except Exc α → Bool
  | .ok _ => true
  | .error _ => false

/-- Normal return, or an exception that `except ImportError` would catch. -/
def excOkOrImport {α : Type} : Except Exc α → Bool
  | .ok _ => true
  | .error e => e.isImportError

/-- A capauth profile: the facade reads `profile.entity.name`,
`profile.key_info.fingerprint`, `profile.entity.email`. -/
structure Profile where
  name : String
  fingerprint : String
  email : String
deriving DecidableEq, Repr

/-- The identity dict the facade builds from a profile
(`\x7bname, fingerprint, email\x7d`). -/
structure Identity where
  name : String
  fingerprint : String
  email : String
deriving DecidableEq, Repr

def profileToIdentity (p : Profile) : Identity :=
  { name := p.name, fingerprint := p.fingerprint, email := p.email }

/-- Modelled from the spec: a record of the external skmemory collaborator.
Per the spec's collaborator contract every record exposes
`.emotional.intensity`; `emotionalAttached` records whether the facade passed
an explicit emotional annotation to `snapshot`, and `emotionalIntensity` is
the intensity the record exposes (0 when no annotation was attached). -/
structure MemRecord where
  id : Nat
  title : String
  content : String
  tags : List String
  emotionalAttached : Bool
  emotionalIntensity : Rat
  source : String
deriving DecidableEq, Repr

/-- Modelled from the spec: the external skmemory store, as the list of
records created so far plus the next fresh identifier. -/
structure MemoryStore where
  records : List MemRecord
  nextId : Nat
deriving DecidableEq, Repr

/-- The empty store a fresh `MemoryStore(primary=backend)` yields. -/
def MemoryStore.fresh : MemoryStore := { records := [], nextId := 0 }

/-- Modelled from the spec: `store.snapshot(title, content, tags, emotional?,
source) -> record`, the record carrying a fresh id. -/
def MemoryStore.snapshot (s : MemoryStore) (title content : String)
    (tags : List String) (emotional : Option Rat) (source : String) :
    MemRecord × MemoryStore :=
  let r : MemRecord :=
    { id := s.nextId, title := title, content := content, tags := tags,
      emotionalAttached := emotional.isSome,
      emotionalIntensity := emotional.getD 0, source := source }
  (r, { records := s.records ++ [r], nextId := s.nextId + 1 })

/-- `pat` occurs as a contiguous substring of `s`. -/
def containsSubstring (s pat : String) : Bool :=
  decide (pat.toList <:+: s.toList)

/-- Modelled from the spec: `store.search(query, limit) -> list of record`, a
text search returning (at most `limit`) records whose content or title
contains the query. -/
def MemoryStore.search (s : MemoryStore) (query : String) (limit : Nat) :
    List MemRecord :=
  (s.records.filter
    (fun r => containsSubstring r.content query || containsSubstring r.title query)).take limit

/-- A skchat message value (`ChatMessage(sender, recipient, content,
thread_id)`); the collaborator assigns an opaque id, modelled as 0. -/
structure ChatMessage where
  id : Nat
  sender : String
  recipient : String
  content : String
  threadId : Option String
deriving DecidableEq, Repr

/-- An incoming message as the transport's `poll_inbox` yields it; the
timestamp is already its ISO-8601 rendering. -/
structure InboxMessage where
  sender : String
  content : String
  threadId : Option String
  timestamp : String
deriving DecidableEq, Repr

/-- One call's view of the outside world: which collaborator modules
are importable, and what each opaque collaborator call returns or raises. -/
structure Env where
  capauthAvailable : Bool
  loadProfileResult : Except Exc Profile
  initProfileResult : Except Exc Profile
  skmemoryAvailable : Bool
  skchatModelsAvailable : Bool
  skchatHistoryAvailable : Bool
  skchatTransportAvailable : Bool
  fromConfigResult : Except Exc Unit
  storeMessageResult : ChatMessage → Except Exc Nat
  sendMessageResult : ChatMessage → Except Exc (Option Bool)
  listMemoriesResult : Except Exc Unit
  pollInboxResult : Except Exc (List InboxMessage)

/-- The Agent's mutable state: `name`, `home`, the three lazily-populated
handles, and the initialized flag.  The history handle is opaque
(`Option Unit`); the last three fields are ghost counters for constructor
calls and delivery attempts. -/
structure AgentState where
  name : String
  home : String
  identity : Option Identity
  memoryStore : Option MemoryStore
  history : Option Unit
  initialized : Bool
  memCreations : Nat
  histCreations : Nat
  deliveryAttempts : Nat
deriving DecidableEq, Repr

/-- `Agent.__init__(name, home)`: no I/O, all handles null. -/
def mkAgent (name : String) (home : String) : AgentState :=
  { name := name, home := home, identity := none, memoryStore := none,
    history := none, initialized := false,
    memCreations := 0, histCreations := 0, deliveryAttempts := 0 }

/-- `Agent._init_memory`: imports skmemory (raising `ImportError` when the
module is unavailable), creates the memory directory and constructs a fresh
store, overwriting any existing handle. -/
def initMemory (env : Env) (a : AgentState) : Except Exc AgentState :=
  if env.skmemoryAvailable then
    .ok { a with memoryStore := some MemoryStore.fresh,
                 memCreations := a.memCreations + 1 }
  else
    .error (.importError "No module named skmemory")

/-- `Agent._get_memory`: memoized lazy creation; an `ImportError` from
`_init_memory` (its only failure in this model) is caught and yields `None`. -/
def getMemory (env : Env) (a : AgentState) : Option MemoryStore × AgentState :=
  match a.memoryStore with
  | some s => (some s, a)
  | none =>
    match initMemory env a with
    | .ok a1 => (a1.memoryStore, a1)
    | .error _ => (none, a)

/-- `Agent._get_history`: memoized; requires the memory handle, then imports
`skchat.history` (`ImportError` caught, yielding `None`) and constructs the
`ChatHistory` at most once. -/
def getHistory (env : Env) (a : AgentState) : Option Unit × AgentState :=
  match a.history with
  | some h => (some h, a)
  | none =>
    match getMemory env a with
    | (none, a1) => (none, a1)
    | (some _, a1) =>
      if env.skchatHistoryAvailable then
        (some (), { a1 with history := some (),
                            histCreations := a1.histCreations + 1 })
      else
        (none, a1)

/-- External side effects `Agent.init` can perform, in order: the
unconditional `self.home.mkdir(parents=True, exist_ok=True)`, the capauth
profile load / creation, and the memory-directory + backend setup that
`_init_memory` performs when skmemory is importable. -/
inductive Effect where
  | mkdirHome
  | loadProfileCall
  | initProfileCall
  | memorySetup
deriving DecidableEq, Repr

/-- The result dict `Agent.init` returns: name, home, and one outcome string
per subsystem. -/
structure InitResult where
  name : String
  home : String
  identity : String
  memory : String
deriving DecidableEq, Repr

/-- The identity branch of `Agent.init`: the `try`/`except ImportError` whose
body loads the profile (any exception there caught by the inner
`except Exception`), creates one when a passphrase is given, and whose
handler records the collaborator as not installed; a non-import exception
raised while creating the identity escapes. -/
def initIdentity (env : Env) (a : AgentState) (passphrase : String) :
    Except Exc String × AgentState × List Effect :=
  if env.capauthAvailable then
    match env.loadProfileResult with
    | .ok p =>
      (.ok "loaded", { a with identity := some (profileToIdentity p) },
       [.loadProfileCall])
    | .error _ =>
      if passphrase = "" then
        (.ok "skipped (no passphrase)", a, [.loadProfileCall])
      else
        match env.initProfileResult with
        | .ok p =>
          (.ok "created", { a with identity := some (profileToIdentity p) },
           [.loadProfileCall, .initProfileCall])
        | .error e =>
          if e.isImportError then
            (.ok "capauth not installed", a, [.loadProfileCall, .initProfileCall])
          else
            (.error e, a, [.loadProfileCall, .initProfileCall])
  else
    (.ok "capauth not installed", a, [])

/-- `Agent.init(email, passphrase, entity_type)`: the unconditional
`home.mkdir`, then the identity branch, then the memory branch (catching only
`ImportError` from `_init_memory`), then `_initialized = True`.  A non-import
exception from the identity branch propagates, keeping the state mutated so
far and leaving `_initialized` unset.  The third component is the trace of
external side effects performed. -/
def initAgent (env : Env) (a : AgentState) (email passphrase entityType : String) :
    Except Exc InitResult × AgentState × List Effect :=
  match initIdentity env a passphrase with
  | (.error e, a1, effs) => (.error e, a1, .mkdirHome :: effs)
  | (.ok idStatus, a1, effs) =>
    match initMemory env a1 with
    | .ok a2 =>
      (.ok { name := a2.name, home := a2.home, identity := idStatus, memory := "ready" },
       { a2 with initialized := true },
       .mkdirHome :: (effs ++ [.memorySetup]))
    | .error _ =>
      (.ok { name := a1.name, home := a1.home, identity := idStatus,
             memory := "skmemory not installed" },
       { a1 with initialized := true },
       .mkdirHome :: effs)

/-- One projected hit of `Agent.recall`. -/
structure RecallHit where
  id : Nat
  title : String
  content : String
  tags : List String
  intensity : Rat
deriving DecidableEq, Repr

/-- The fixed-shape projection `recall` applies to each search hit:
id, title, content truncated to 200 characters, tags, intensity. -/
def projectHit (m : MemRecord) : RecallHit :=
  { id := m.id, title := m.title, content := m.content.take 200,
    tags := m.tags, intensity := m.emotionalIntensity }

/-- `Agent.remember(content, title, tags, intensity)`: `None` when the memory
handle cannot be obtained; otherwise imports `skmemory.models` (raising
`ImportError`, uncaught, in the corner case where the handle was memoized but
the module is no longer importable), defaults the title to the first 60
characters of the content, attaches an emotional annotation only for strictly
positive intensity, snapshots and returns the new record's id. -/
def remember (env : Env) (a : AgentState) (content title : String)
    (tags : List String) (intensity : Rat) :
    Except Exc (Option Nat) × AgentState :=
  match getMemory env a with
  | (none, a1) => (.ok none, a1)
  | (some store, a1) =>
    if env.skmemoryAvailable then
      let title1 := if title = "" then content.take 60 else title
      let emotional : Option Rat := if 0 < intensity then some intensity else none
      match store.snapshot title1 content tags emotional "sdk" with
      | (r, store1) => (.ok (some r.id), { a1 with memoryStore := some store1 })
    else
      (.error (.importError "No module named skmemory"), a1)

/-- `Agent.recall(query, limit)`: empty list when memory is unavailable,
otherwise the search hits under the fixed-shape projection. -/
def recallAgent (env : Env) (a : AgentState) (query : String) (limit : Nat) :
    List RecallHit × AgentState :=
  match getMemory env a with
  | (none, a1) => ([], a1)
  | (some store, a1) => ((store.search query limit).map projectHit, a1)

/-- The result dict of `Agent.send`; `recipient` and `stored` are always
present, `delivered` and `error` only on the paths that set them. -/
structure SendResult where
  recipient : String
  stored : Bool
  delivered : Option Bool
  error : Option String
deriving DecidableEq, Repr

/-- The capability-identity URI `send`/`receive` use as sender: the identity
fingerprint, or the agent name when no identity is set. -/
def senderUri (a : AgentState) : String :=
  "capauth:" ++ (match a.identity with
    | some ident => ident.fingerprint
    | none => a.name)

/-- The `ChatMessage` `Agent.send` constructs. -/
def mkMsg (a : AgentState) (recipient content : String)
    (threadId : Option String) : ChatMessage :=
  { id := 0, sender := senderUri a, recipient := recipient, content := content,
    threadId := threadId }

/-- The inner `try` of `Agent.send`: import transport + skcomm,
`SKComm.from_config()`, construct the transport, `send_message`; on success
`delivered` is the dict's `delivered` value defaulting to `False`, and any
exception (imports included) yields `delivered=False`. -/
def attemptDelivery (env : Env) (msg : ChatMessage) (r : SendResult) : SendResult :=
  if env.skchatTransportAvailable then
    match env.fromConfigResult with
    | .error _ => { r with delivered := some false }
    | .ok _ =>
      match env.sendMessageResult msg with
      | .error _ => { r with delivered := some false }
      | .ok d => { r with delivered := some (d.getD false) }
  else
    { r with delivered := some false }

/-- `Agent.send(recipient, content, thread_id)`.  The outer `try` catches only
`ImportError`: a non-import exception raised by `history.store_message`
propagates (keeping the state mutations performed so far), while an import
failure anywhere under the outer `try` yields the `error` field.  The ghost
`deliveryAttempts` counter increments exactly when the inner delivery block is
entered. -/
def send (env : Env) (a : AgentState) (recipient content : String)
    (threadId : Option String) : Except Exc SendResult × AgentState :=
  let r0 : SendResult :=
    { recipient := recipient, stored := false, delivered := none, error := none }
  if env.skchatModelsAvailable then
    let msg := mkMsg a recipient content threadId
    match getHistory env a with
    | (some _, a1) =>
      match env.storeMessageResult msg with
      | .ok _ =>
        (.ok (attemptDelivery env msg { r0 with stored := true }),
         { a1 with deliveryAttempts := a1.deliveryAttempts + 1 })
      | .error e =>
        if e.isImportError then
          (.ok { r0 with error := some "skchat not installed" }, a1)
        else
          (.error e, a1)
    | (none, a1) =>
      (.ok (attemptDelivery env msg r0),
       { a1 with deliveryAttempts := a1.deliveryAttempts + 1 })
  else
    (.ok { r0 with error := some "skchat not installed" }, a)

/-- One projected message of `Agent.receive`. -/
structure ReceivedMessage where
  sender : String
  content : String
  threadId : Option String
  timestamp : String
deriving DecidableEq, Repr

/-- `Agent.receive()`: empty list when the transport imports fail or no
history handle can be obtained; `except ImportError` is the only handler, so
a non-import exception from `from_config` or `poll_inbox` propagates. -/
def receive (env : Env) (a : AgentState) :
    Except Exc (List ReceivedMessage) × AgentState :=
  if env.skchatTransportAvailable then
    match getHistory env a with
    | (none, a1) => (.ok [], a1)
    | (some _, a1) =>
      match env.fromConfigResult with
      | .error e => if e.isImportError then (.ok [], a1) else (.error e, a1)
      | .ok _ =>
        match env.pollInboxResult with
        | .error e => if e.isImportError then (.ok [], a1) else (.error e, a1)
        | .ok msgs =>
          (.ok (msgs.map (fun m =>
            { sender := m.sender, content := m.content,
              threadId := m.threadId, timestamp := m.timestamp })), a1)
  else
    (.ok [], a)

/-- The status dict: `fingerprint` is present only when an identity is set. -/
structure StatusResult where
  name : String
  home : String
  initialized : Bool
  version : String
  fingerprint : Option String
  identity : String
  memory : String
deriving DecidableEq, Repr

/-- `Agent.status()`: reads the in-memory fields, then probes the memory
handle (`list_memories(limit=1)` inside `try/except Exception`) to classify
memory as active / error / unavailable. -/
def statusAgent (env : Env) (a : AgentState) :
    Except Exc StatusResult × AgentState :=
  let withId : StatusResult :=
    match a.identity with
    | some ident =>
      { name := a.name, home := a.home, initialized := a.initialized,
        version := "0.1.0",
        fingerprint := some (ident.fingerprint.take 16 ++ "..."),
        identity := "active", memory := "" }
    | none =>
      { name := a.name, home := a.home, initialized := a.initialized,
        version := "0.1.0", fingerprint := none,
        identity := "none", memory := "" }
  match getMemory env a with
  | (some _, a1) =>
    match env.listMemoriesResult with
    | .ok _ => (.ok { withId with memory := "active" }, a1)
    | .error _ => (.ok { withId with memory := "error" }, a1)
  | (none, a1) => (.ok { withId with memory := "unavailable" }, a1)

/-- `quick.create_identity(name, email, passphrase, entity_type)`: no degraded
mode — an import failure of capauth is re-raised as an explicit dependency
failure; non-import errors from the collaborator propagate as-is. -/
def createIdentity (env : Env) (name email passphrase entityType : String) :
    Except Exc Identity :=
  if env.capauthAvailable then
    match env.initProfileResult with
    | .ok p => .ok (profileToIdentity p)
    | .error e =>
      if e.isImportError then
        .error (.importError "capauth is required: pip install capauth")
      else
        .error e
  else
    .error (.importError "capauth is required: pip install capauth")

/-- `quick.load_identity(home)`: same dependency policy as
`create_identity`. -/
def loadIdentity (env : Env) (home : String) : Except Exc Identity :=
  if env.capauthAvailable then
    match env.loadProfileResult with
    | .ok p => .ok (profileToIdentity p)
    | .error e =>
      if e.isImportError then
        .error (.importError "capauth is required: pip install capauth")
      else
        .error e
  else
    .error (.importError "capauth is required: pip install capauth")

/-- `quick.store_memory(content, title, tags, home)`: wires its own fresh
store; raises an explicit dependency failure when the skmemory package
is missing.  `disk` is the store state read back from the given home
directory. -/
def storeMemory (env : Env) (disk : MemoryStore) (content title : String)
    (tags : List String) : Except Exc Nat :=
  if env.skmemoryAvailable then
    let title1 := if title = "" then content.take 60 else title
    match disk.snapshot title1 content tags none "sdk" with
    | (r, _) => .ok r.id
  else
    .error (.importError "skmemory is required: pip install skmemory")

/-- One projected hit of `quick.recall_memory` (no intensity field, unlike
the Agent method). -/
structure QuickHit where
  id : Nat
  title : String
  content : String
  tags : List String
deriving DecidableEq, Repr

/-- `quick.recall_memory(query, limit, home)`: empty list when the home
directory does not exist (`disk = none`); raises an explicit dependency
failure when skmemory is not importable. -/
def recallMemory (env : Env) (disk : Option MemoryStore) (query : String)
    (limit : Nat) : Except Exc (List QuickHit) :=
  if env.skmemoryAvailable then
    match disk with
    | none => .ok []
    | some store =>
      .ok ((store.search query limit).map (fun m =>
        { id := m.id, title := m.title, content := m.content.take 200,
          tags := m.tags }))
  else
    .error (.importError "skmemory is required: pip install skmemory")

/-- The result dict of `quick.send_message`. -/
structure QuickSendResult where
  stored : Bool
  memoryId : Nat
  messageId : Nat
  recipient : String
deriving DecidableEq, Repr

/-- `quick.send_message(recipient, content, sender, thread_id)`: wires its own
store and history; any import failure among skchat.models, skchat.history and
skmemory is re-raised as an explicit dependency failure, and a non-import
error from `store_message` propagates as-is. -/
def sendMessageQuick (env : Env) (recipient content sender : String)
    (threadId : Option String) : Except Exc QuickSendResult :=
  if env.skchatModelsAvailable && env.skchatHistoryAvailable && env.skmemoryAvailable then
    let msg : ChatMessage :=
      { id := 0, sender := sender, recipient := recipient, content := content,
        threadId := threadId }
    match env.storeMessageResult msg with
    | .ok memId =>
      .ok { stored := true, memoryId := memId, messageId := msg.id,
            recipient := recipient }
    | .error e =>
      if e.isImportError then
        .error (.importError "skchat and skmemory are required")
      else
        .error e
  else
    .error (.importError "skchat and skmemory are required")

/-- A public Agent operation with its arguments. -/
inductive Op where
  | init (email passphrase entityType : String)
  | remember (content title : String) (tags : List String) (intensity : Rat)
  | recallOp (query : String) (limit : Nat)
  | send (recipient content : String) (threadId : Option String)
  | receive
  | status

/-- Whether an operation is `init` (the one operation that constructs the
memory store eagerly rather than through `_get_memory`). -/
def Op.isInit : Op → Bool
  | .init _ _ _ => true
  | _ => false

/-- The state after running one public operation (results discarded; on a
raising operation the state mutated so far is kept, as in Python). -/
def step (env : Env) (a : AgentState) : Op → AgentState
  | .init e p t => (initAgent env a e p t).2.1
  | .remember c t tags i => (remember env a c t tags i).2
  | .recallOp q l => (recallAgent env a q l).2
  | .send r c tid => (send env a r c tid).2
  | .receive => (receive env a).2
  | .status => (statusAgent env a).2

/-- The state after running a sequence of public operations. -/
def run (env : Env) (a : AgentState) : List Op → AgentState
  | [] => a
  | op :: ops => run env (step env a op) ops

/-- An environment where every collaborator is importable and every
collaborator call succeeds. -/
def envFull : Env :=
  { capauthAvailable := true,
    loadProfileResult := .ok { name := "Bot", fingerprint := "ABCDEF", email := "bot@x" },
    initProfileResult := .ok { name := "Bot", fingerprint := "ABCDEF", email := "bot@x" },
    skmemoryAvailable := true,
    skchatModelsAvailable := true,
    skchatHistoryAvailable := true,
    skchatTransportAvailable := true,
    fromConfigResult := .ok (),
    storeMessageResult := fun _ => .ok 0,
    sendMessageResult := fun _ => .ok (some true),
    listMemoriesResult := .ok (),
    pollInboxResult := .ok [] }

/-- An environment where no collaborator module is importable. -/
def envNone : Env :=
  { capauthAvailable := false,
    loadProfileResult := .error (.importError "No module named capauth"),
    initProfileResult := .error (.importError "No module named capauth"),
    skmemoryAvailable := false,
    skchatModelsAvailable := false,
    skchatHistoryAvailable := false,
    skchatTransportAvailable := false,
    fromConfigResult := .error (.importError "No module named skcomm"),
    storeMessageResult := fun _ => .error (.importError "No module named skchat"),
    sendMessageResult := fun _ => .error (.importError "No module named skchat"),
    listMemoriesResult := .error (.importError "No module named skmemory"),
    pollInboxResult := .error (.importError "No module named skchat") }

/-- `envFull` except that `history.store_message` raises a non-import
exception. -/
def envStoreBoom : Env :=
  { envFull with storeMessageResult := fun _ => .error (.runtimeError "boom") }

/-- `envFull` except that no capauth profile exists on disk and profile
creation raises a non-import exception. -/
def envKeygenFails : Env :=
  { envFull with
    loadProfileResult := .error (.runtimeError "no profile found"),
    initProfileResult := .error (.runtimeError "keygen failed") }

/-- Constructor-call potential of the memory handle: counts constructions
performed so far plus the at-most-one lazy construction still available. -/
def memPotential (a : AgentState) : Nat :=
  a.memCreations + (if a.memoryStore.isSome then 0 else 1)

/-- Constructor-call potential of the history handle. -/
def histPotential (a : AgentState) : Nat :=
  a.histCreations + (if a.history.isSome then 0 else 1)

theorem getMemory_fst_eq (env : Env) (a : AgentState) :
    (getMemory env a).1 = (getMemory env a).2.memoryStore := by
  cases hm : a.memoryStore <;> cases hs : env.skmemoryAvailable <;>
    simp [getMemory, initMemory, hm, hs]

theorem getMemory_of_isSome (env : Env) (a : AgentState) (s : MemoryStore)
    (h : a.memoryStore = some s) : getMemory env a = (some s, a) := by
  simp [getMemory, h]

theorem getMemory_state (env : Env) (a : AgentState) :
    (getMemory env a).2.name = a.name ∧
    (getMemory env a).2.home = a.home ∧
    (getMemory env a).2.identity = a.identity ∧
    (getMemory env a).2.initialized = a.initialized ∧
    (getMemory env a).2.history = a.history ∧
    (getMemory env a).2.histCreations = a.histCreations ∧
    (getMemory env a).2.deliveryAttempts = a.deliveryAttempts := by
  cases hm : a.memoryStore <;> cases hs : env.skmemoryAvailable <;>
    simp [getMemory, initMemory, hm, hs]

theorem getMemory_memPotential (env : Env) (a : AgentState) :
    memPotential (getMemory env a).2 = memPotential a := by
  cases hm : a.memoryStore <;> cases hs : env.skmemoryAvailable <;>
    simp [getMemory, initMemory, memPotential, hm, hs, MemoryStore.fresh]

theorem getMemory_isSome_iff (env : Env) (a : AgentState) :
    ((getMemory env a).1).isSome = (a.memoryStore.isSome || env.skmemoryAvailable) := by
  cases hm : a.memoryStore <;> cases hs : env.skmemoryAvailable <;>
    simp [getMemory, initMemory, hm, hs, MemoryStore.fresh]

theorem getMemory_unchanged_of_isSome (env : Env) (a : AgentState)
    (h : a.memoryStore.isSome = true) : getMemory env a = (a.memoryStore, a) := by
  cases hm : a.memoryStore with
  | none => rw [hm] at h; simp at h
  | some s => simp [getMemory, hm]

theorem getHistory_of_isSome (env : Env) (a : AgentState) (h : Unit)
    (hh : a.history = some h) : getHistory env a = (some h, a) := by
  simp [getHistory, hh]

theorem getHistory_state (env : Env) (a : AgentState) :
    (getHistory env a).2.name = a.name ∧
    (getHistory env a).2.home = a.home ∧
    (getHistory env a).2.identity = a.identity ∧
    (getHistory env a).2.initialized = a.initialized ∧
    (getHistory env a).2.deliveryAttempts = a.deliveryAttempts := by
  cases hh : a.history with
  | some h => simp [getHistory, hh]
  | none =>
    rcases hg : getMemory env a with ⟨m, a1⟩
    have hst := getMemory_state env a
    rw [hg] at hst
    simp only at hst
    cases m with
    | none =>
      simp only [getHistory, hh, hg]
      exact ⟨hst.1, hst.2.1, hst.2.2.1, hst.2.2.2.1, hst.2.2.2.2.2.2⟩
    | some s =>
      cases hc : env.skchatHistoryAvailable <;>
        simp only [getHistory, hh, hg, hc, Bool.false_eq_true, if_false, if_true] <;>
        exact ⟨hst.1, hst.2.1, hst.2.2.1, hst.2.2.2.1, hst.2.2.2.2.2.2⟩

theorem getHistory_memPotential (env : Env) (a : AgentState) :
    memPotential (getHistory env a).2 = memPotential a := by
  cases hh : a.history with
  | some h => simp [getHistory, hh]
  | none =>
    rcases hg : getMemory env a with ⟨m, a1⟩
    have hp := getMemory_memPotential env a
    rw [hg] at hp
    simp only at hp
    cases m with
    | none => simp only [getHistory, hh, hg]; exact hp
    | some s =>
      cases hc : env.skchatHistoryAvailable <;>
        simp only [getHistory, hh, hg, hc, Bool.false_eq_true, if_false, if_true]
      · exact hp
      · rw [← hp]; simp [memPotential]

theorem getHistory_histPotential (env : Env) (a : AgentState) :
    histPotential (getHistory env a).2 = histPotential a := by
  cases hh : a.history with
  | some h => simp [getHistory, hh]
  | none =>
    rcases hg : getMemory env a with ⟨m, a1⟩
    have hst := getMemory_state env a
    rw [hg] at hst
    simp only at hst
    cases m with
    | none =>
      simp only [getHistory, hh, hg]
      simp [histPotential, hst.2.2.2.2.1, hst.2.2.2.2.2.1, hh]
    | some s =>
      cases hc : env.skchatHistoryAvailable <;>
        simp only [getHistory, hh, hg, hc, Bool.false_eq_true, if_false, if_true] <;>
        simp [histPotential, hst.2.2.2.2.1, hst.2.2.2.2.2.1, hh]

theorem getHistory_memSome (env : Env) (a : AgentState)
    (h : a.memoryStore.isSome = true) :
    (getHistory env a).2.memoryStore.isSome = true := by
  cases hh : a.history with
  | some hu => simp [getHistory, hh, h]
  | none =>
    have heq := getMemory_unchanged_of_isSome env a h
    cases hm : a.memoryStore with
    | none => rw [hm] at h; simp at h
    | some s =>
      rw [hm] at heq
      cases hc : env.skchatHistoryAvailable <;> simp [getHistory, hh, heq, hc, hm]

theorem getHistory_histSome (env : Env) (a : AgentState) (h : Unit)
    (hh : a.history = some h) : (getHistory env a).2.history = some h := by
  simp [getHistory, hh]

theorem recallAgent_state_eq (env : Env) (a : AgentState) (q : String) (l : Nat) :
    (recallAgent env a q l).2 = (getMemory env a).2 := by
  rcases hg : getMemory env a with ⟨m, a1⟩
  cases m <;> simp [recallAgent, hg]

theorem statusAgent_state_eq (env : Env) (a : AgentState) :
    (statusAgent env a).2 = (getMemory env a).2 := by
  rcases hg : getMemory env a with ⟨m, a1⟩
  cases m with
  | none => simp [statusAgent, hg]
  | some s => cases hl : env.listMemoriesResult <;> simp [statusAgent, hg, hl]

theorem remember_state_shape (env : Env) (a : AgentState) (c t : String)
    (tg : List String) (i : Rat) :
    (remember env a c t tg i).2 = (getMemory env a).2 ∨
    ∃ s, (remember env a c t tg i).2 =
      { (getMemory env a).2 with memoryStore := some s } := by
  rcases hg : getMemory env a with ⟨m, a1⟩
  cases m with
  | none => left; simp [remember, hg]
  | some store =>
    cases hs : env.skmemoryAvailable
    · left; simp [remember, hg, hs]
    · right
      refine ⟨(store.snapshot (if t = "" then c.take 60 else t) c tg
        (if 0 < i then some i else none) "sdk").2, ?_⟩
      simp [remember, hg, hs, MemoryStore.snapshot]

theorem send_state_shape (env : Env) (a : AgentState) (r c : String)
    (tid : Option String) :
    (send env a r c tid).2 = a ∨
    (send env a r c tid).2 = (getHistory env a).2 ∨
    (send env a r c tid).2 =
      { (getHistory env a).2 with
        deliveryAttempts := (getHistory env a).2.deliveryAttempts + 1 } := by
  cases hmav : env.skchatModelsAvailable
  · left; simp [send, hmav]
  · rcases hg : getHistory env a with ⟨oh, a1⟩
    cases oh with
    | none => right; right; simp [send, hmav, hg]
    | some u =>
      cases hst : env.storeMessageResult (mkMsg a r c tid) with
      | ok n => right; right; simp [send, hmav, hg, hst]
      | error e =>
        cases hie : e.isImportError <;> (right; left; simp [send, hmav, hg, hst, hie])

theorem receive_state_shape (env : Env) (a : AgentState) :
    (receive env a).2 = a ∨ (receive env a).2 = (getHistory env a).2 := by
  cases htr : env.skchatTransportAvailable
  · left; simp [receive, htr]
  · rcases hg : getHistory env a with ⟨oh, a1⟩
    cases oh with
    | none => right; simp [receive, htr, hg]
    | some u =>
      cases hfc : env.fromConfigResult with
      | error e =>
        cases hie : e.isImportError <;> (right; simp [receive, htr, hg, hfc, hie])
      | ok v =>
        cases hpi : env.pollInboxResult with
        | error e =>
          cases hie : e.isImportError <;> (right; simp [receive, htr, hg, hfc, hpi, hie])
        | ok msgs => right; simp [receive, htr, hg, hfc, hpi]

theorem initIdentity_state_shape (env : Env) (a : AgentState) (p : String) :
    (initIdentity env a p).2.1 = a ∨
    ∃ ident, (initIdentity env a p).2.1 = { a with identity := some ident } := by
  cases hc : env.capauthAvailable
  · left; simp [initIdentity, hc]
  · cases hl : env.loadProfileResult with
    | ok pr =>
      right
      exact ⟨profileToIdentity pr, by simp [initIdentity, hc, hl]⟩
    | error e1 =>
      by_cases hp : p = ""
      · left; simp [initIdentity, hc, hl, hp]
      · cases hi : env.initProfileResult with
        | ok pr =>
          right
          exact ⟨profileToIdentity pr, by simp [initIdentity, hc, hl, hp, hi]⟩
        | error e =>
          cases hie : e.isImportError <;>
            (left; simp [initIdentity, hc, hl, hp, hi, hie])

theorem initAgent_hist_facts (env : Env) (a : AgentState) (e p t : String) :
    (initAgent env a e p t).2.1.history = a.history ∧
    (initAgent env a e p t).2.1.histCreations = a.histCreations ∧
    (initAgent env a e p t).2.1.deliveryAttempts = a.deliveryAttempts ∧
    (a.memoryStore.isSome = true →
      (initAgent env a e p t).2.1.memoryStore.isSome = true) := by
  rcases hid : initIdentity env a p with ⟨res, a1, effs⟩
  have hsh := initIdentity_state_shape env a p
  rw [hid] at hsh
  simp only at hsh
  have h1 : a1.history = a.history ∧ a1.histCreations = a.histCreations ∧
      a1.deliveryAttempts = a.deliveryAttempts ∧ a1.memoryStore = a.memoryStore := by
    rcases hsh with h | ⟨ident, h⟩ <;> rw [h] <;> simp
  cases res with
  | error e2 =>
    simp only [initAgent, hid]
    exact ⟨h1.1, h1.2.1, h1.2.2.1, fun hm => by rw [h1.2.2.2]; exact hm⟩
  | ok s =>
    cases hs : env.skmemoryAvailable <;>
      simp only [initAgent, initMemory, hid, hs, Bool.false_eq_true, if_false, if_true]
    · exact ⟨h1.1, h1.2.1, h1.2.2.1, fun hm => by rw [h1.2.2.2]; exact hm⟩
    · exact ⟨h1.1, h1.2.1, h1.2.2.1, fun hm => by simp⟩

theorem step_histPotential_le (env : Env) (a : AgentState) (op : Op) :
    histPotential (step env a op) ≤ histPotential a := by
  have hgm : ∀ s, histPotential { (getMemory env a).2 with memoryStore := some s } =
      histPotential a := by
    intro s
    have hst := getMemory_state env a
    simp [histPotential, hst.2.2.2.2.1, hst.2.2.2.2.2.1]
  have hgm0 : histPotential (getMemory env a).2 = histPotential a := by
    have hst := getMemory_state env a
    simp [histPotential, hst.2.2.2.2.1, hst.2.2.2.2.2.1]
  have hgh : histPotential (getHistory env a).2 = histPotential a :=
    getHistory_histPotential env a
  cases op with
  | init e p t =>
    have hf := initAgent_hist_facts env a e p t
    simp [step, histPotential, hf.1, hf.2.1]
  | remember c t tg i =>
    rcases remember_state_shape env a c t tg i with h | ⟨s, h⟩ <;>
      simp [step, h, hgm0, hgm]
  | recallOp q l => simp [step, recallAgent_state_eq, hgm0]
  | send r c tid =>
    have hupd : histPotential
        { (getHistory env a).2 with
          deliveryAttempts := (getHistory env a).2.deliveryAttempts + 1 } =
        histPotential (getHistory env a).2 := by
      simp [histPotential]
    rcases send_state_shape env a r c tid with h | h | h
    · simp [step, h]
    · simp [step, h, hgh]
    · simp [step, h, hupd, hgh]
  | receive =>
    rcases receive_state_shape env a with h | h
    · simp [step, h]
    · simp [step, h, hgh]
  | status => simp [step, statusAgent_state_eq, hgm0]

theorem step_memPotential_le (env : Env) (a : AgentState) (op : Op)
    (h : op.isInit = false) :
    memPotential (step env a op) ≤ memPotential a := by
  have hgm0 : memPotential (getMemory env a).2 = memPotential a :=
    getMemory_memPotential env a
  have hgh : memPotential (getHistory env a).2 = memPotential a :=
    getHistory_memPotential env a
  cases op with
  | init e p t => simp [Op.isInit] at h
  | remember c t tg i =>
    rcases remember_state_shape env a c t tg i with hs | ⟨s, hs⟩
    · simp [step, hs, hgm0]
    · have hupd : memPotential
          { (getMemory env a).2 with memoryStore := some s } ≤
          memPotential (getMemory env a).2 := by
        simp [memPotential]
      calc memPotential (step env a (Op.remember c t tg i))
          = memPotential { (getMemory env a).2 with memoryStore := some s } := by
            simp [step, hs]
        _ ≤ memPotential (getMemory env a).2 := hupd
        _ = memPotential a := hgm0
  | recallOp q l => simp [step, recallAgent_state_eq, hgm0]
  | send r c tid =>
    have hupd : memPotential
        { (getHistory env a).2 with
          deliveryAttempts := (getHistory env a).2.deliveryAttempts + 1 } =
        memPotential (getHistory env a).2 := by
      simp [memPotential]
    rcases send_state_shape env a r c tid with hs | hs | hs
    · simp [step, hs]
    · simp [step, hs, hgh]
    · simp [step, hs, hupd, hgh]
  | receive =>
    rcases receive_state_shape env a with hs | hs
    · simp [step, hs]
    · simp [step, hs, hgh]
  | status => simp [step, statusAgent_state_eq, hgm0]

theorem step_memSome (env : Env) (a : AgentState) (op : Op)
    (h : a.memoryStore.isSome = true) :
    (step env a op).memoryStore.isSome = true := by
  have hgm : (getMemory env a).2.memoryStore.isSome = true := by
    rw [getMemory_unchanged_of_isSome env a h]; exact h
  have hgh : (getHistory env a).2.memoryStore.isSome = true :=
    getHistory_memSome env a h
  cases op with
  | init e p t => exact (initAgent_hist_facts env a e p t).2.2.2 h
  | remember c t tg i =>
    rcases remember_state_shape env a c t tg i with hs | ⟨s, hs⟩ <;> simp [step, hs, hgm]
  | recallOp q l => simp [step, recallAgent_state_eq, hgm]
  | send r c tid =>
    rcases send_state_shape env a r c tid with hs | hs | hs <;> simp [step, hs, h, hgh]
  | receive =>
    rcases receive_state_shape env a with hs | hs <;> simp [step, hs, h, hgh]
  | status => simp [step, statusAgent_state_eq, hgm]

theorem step_histSome (env : Env) (a : AgentState) (op : Op) (u : Unit)
    (h : a.history = some u) : (step env a op).history = some u := by
  have hgm : (getMemory env a).2.history = some u := by
    rw [(getMemory_state env a).2.2.2.2.1]; exact h
  have hgh : (getHistory env a).2.history = some u :=
    getHistory_histSome env a u h
  cases op with
  | init e p t => exact ((initAgent_hist_facts env a e p t).1).trans h
  | remember c t tg i =>
    rcases remember_state_shape env a c t tg i with hs | ⟨s, hs⟩ <;> simp [step, hs, hgm]
  | recallOp q l => simp [step, recallAgent_state_eq, hgm]
  | send r c tid =>
    rcases send_state_shape env a r c tid with hs | hs | hs <;> simp [step, hs, h, hgh]
  | receive =>
    rcases receive_state_shape env a with hs | hs <;> simp [step, hs, h, hgh]
  | status => simp [step, statusAgent_state_eq, hgm]

theorem run_histPotential_le (env : Env) (ops : List Op) :
    ∀ a : AgentState, histPotential (run env a ops) ≤ histPotential a := by
  induction ops with
  | nil => intro a; simp [run]
  | cons op ops ih =>
    intro a
    calc histPotential (run env (step env a op) ops)
        ≤ histPotential (step env a op) := ih (step env a op)
      _ ≤ histPotential a := step_histPotential_le env a op

theorem run_memPotential_le (env : Env) (ops : List Op)
    (h : ∀ op ∈ ops, op.isInit = false) :
    ∀ a : AgentState, memPotential (run env a ops) ≤ memPotential a := by
  induction ops with
  | nil => intro a; simp [run]
  | cons op ops ih =>
    intro a
    have h1 : op.isInit = false := h op (List.mem_cons_self op ops)
    have h2 : ∀ o ∈ ops, o.isInit = false := fun o ho => h o (List.mem_cons_of_mem op ho)
    calc memPotential (run env (step env a op) ops)
        ≤ memPotential (step env a op) := ih h2 (step env a op)
      _ ≤ memPotential a := step_memPotential_le env a op h1

theorem run_memSome (env : Env) (ops : List Op) :
    ∀ a : AgentState, a.memoryStore.isSome = true →
      (run env a ops).memoryStore.isSome = true := by
  induction ops with
  | nil => intro a h; simpa [run] using h
  | cons op ops ih =>
    intro a h
    exact ih (step env a op) (step_memSome env a op h)

theorem run_histSome (env : Env) (ops : List Op) :
    ∀ (a : AgentState) (u : Unit), a.history = some u →
      (run env a ops).history = some u := by
  induction ops with
  | nil => intro a u h; simpa [run] using h
  | cons op ops ih =>
    intro a u h
    exact ih (step env a op) u (step_histSome env a op u h)

/-- The delivery attempt of `Agent.send` fails: transport or comm module
missing, `SKComm.from_config()` raising, or `send_message` raising. -/
def deliveryFails (env : Env) (msg : ChatMessage) : Bool :=
  !env.skchatTransportAvailable || !excIsOk env.fromConfigResult ||
    !excIsOk (env.sendMessageResult msg)

theorem attemptDelivery_fields (env : Env) (msg : ChatMessage) (r : SendResult) :
    (attemptDelivery env msg r).recipient = r.recipient ∧
    (attemptDelivery env msg r).stored = r.stored ∧
    (attemptDelivery env msg r).error = r.error := by
  cases htr : env.skchatTransportAvailable <;>
    cases hfc : env.fromConfigResult <;>
    cases hsm : env.sendMessageResult msg <;>
    simp [attemptDelivery, htr, hfc, hsm]

theorem attemptDelivery_delivered_isSome (env : Env) (msg : ChatMessage)
    (r : SendResult) : (attemptDelivery env msg r).delivered.isSome = true := by
  cases htr : env.skchatTransportAvailable <;>
    cases hfc : env.fromConfigResult <;>
    cases hsm : env.sendMessageResult msg <;>
    simp [attemptDelivery, htr, hfc, hsm]

theorem attemptDelivery_fail (env : Env) (msg : ChatMessage) (r : SendResult)
    (h : deliveryFails env msg = true) :
    (attemptDelivery env msg r).delivered = some false := by
  cases htr : env.skchatTransportAvailable <;>
    cases hfc : env.fromConfigResult <;>
    cases hsm : env.sendMessageResult msg <;>
    simp_all [attemptDelivery, deliveryFails, excIsOk]

/-- C10: every result mapping returned by `Agent.send` carries the
`recipient` key equal to the recipient argument and the `stored` key (both
are unconditional fields of `SendResult`); in particular when the messaging
collaborator is unavailable, `stored` remains `False` alongside the `error`
field. -/
theorem send_result_recipient_and_stored (env : Env) (a : AgentState)
    (recipient content : String) (tid : Option String) (r : SendResult)
    (h : (send env a recipient content tid).1 = .ok r) :
    r.recipient = recipient ∧
    (env.skchatModelsAvailable = false →
      r.stored = false ∧ r.error = some "skchat not installed") := by
  cases hmav : env.skchatModelsAvailable
  · simp only [send, hmav, Bool.false_eq_true, if_false] at h
    injection h with h2
    subst h2
    simp
  · have hflds := fun r0 => attemptDelivery_fields env (mkMsg a recipient content tid) r0
    rcases hg : getHistory env a with ⟨oh, a1⟩
    cases oh with
    | none =>
      simp only [send, hmav, if_true, hg] at h
      injection h with h2
      subst h2
      refine ⟨?_, by simp [hmav]⟩
      rw [(hflds _).1]
    | some u =>
      cases hst : env.storeMessageResult (mkMsg a recipient content tid) with
      | ok n =>
        simp only [send, hmav, if_true, hg, hst] at h
        injection h with h2
        subst h2
        refine ⟨?_, by simp [hmav]⟩
        rw [(hflds _).1]
      | error e =>
        cases hie : e.isImportError
        · simp only [send, hmav, if_true, hg, hst, hie, Bool.false_eq_true, if_false] at h
          exact Except.noConfusion h
        · simp only [send, hmav, if_true, hg, hst, hie, if_true] at h
          injection h with h2
          subst h2
          exact ⟨rfl, by simp [hmav]⟩

/-- Closed witness for C10 at a concrete input: the messaging collaborator is
unavailable and the returned result still carries the recipient and a false
`stored` next to the `error` field. -/
theorem send_result_recipient_and_stored_witness :
    (({ recipient := "p", stored := false, delivered := none,
        error := some "skchat not installed" } : SendResult).recipient = "p") ∧
    (envNone.skchatModelsAvailable = false →
      ({ recipient := "p", stored := false, delivered := none,
         error := some "skchat not installed" } : SendResult).stored = false ∧
      ({ recipient := "p", stored := false, delivered := none,
         error := some "skchat not installed" } : SendResult).error =
        some "skchat not installed") :=
  send_result_recipient_and_stored envNone (mkAgent "A" "h") "p" "hi" none
    { recipient := "p", stored := false, delivered := none,
      error := some "skchat not installed" } (by rfl)

/-- C1: when the messaging collaborator is importable, a returned `send`
result has `stored=true` exactly when the history handle exists and
`store_message` succeeds, independently of the delivery outcome; a delivery
failure (missing transport or comm collaborator, or an error raised during
`from_config` or `send_message`) is swallowed and recorded as
`delivered=false`; and when the messaging collaborator is entirely
unavailable the result instead carries the `error` field, the state is
untouched and no delivery is attempted. -/
theorem send_stored_iff_and_delivery_swallowed (env : Env) (a : AgentState)
    (recipient content : String) (tid : Option String) :
    (env.skchatModelsAvailable = false →
      send env a recipient content tid =
        (.ok { recipient := recipient, stored := false, delivered := none,
               error := some "skchat not installed" }, a)) ∧
    (∀ r : SendResult, (send env a recipient content tid).1 = .ok r →
      env.skchatModelsAvailable = true →
      (r.stored = true ↔
        ((getHistory env a).1.isSome = true ∧
         excIsOk (env.storeMessageResult (mkMsg a recipient content tid)) = true))) ∧
    (env.skchatModelsAvailable = true →
      ((getHistory env a).1.isSome = true →
        excIsOk (env.storeMessageResult (mkMsg a recipient content tid)) = true) →
      deliveryFails env (mkMsg a recipient content tid) = true →
      ∃ r : SendResult, (send env a recipient content tid).1 = .ok r ∧
        r.delivered = some false) := by
  refine ⟨?_, ?_, ?_⟩
  · intro h
    simp [send, h]
  · intro r hr hav
    rcases hg : getHistory env a with ⟨oh, a1⟩
    cases oh with
    | none =>
      simp only [send, hav, if_true, hg] at hr
      injection hr with h2
      subst h2
      rw [(attemptDelivery_fields env (mkMsg a recipient content tid) _).2.1]
      simp [hg]
    | some u =>
      cases hst : env.storeMessageResult (mkMsg a recipient content tid) with
      | ok n =>
        simp only [send, hav, if_true, hg, hst] at hr
        injection hr with h2
        subst h2
        rw [(attemptDelivery_fields env (mkMsg a recipient content tid) _).2.1]
        simp [hg, hst, excIsOk]
      | error e =>
        cases hie : e.isImportError
        · simp only [send, hav, if_true, hg, hst, hie, Bool.false_eq_true, if_false] at hr
          exact Except.noConfusion hr
        · simp only [send, hav, if_true, hg, hst, hie, if_true] at hr
          injection hr with h2
          subst h2
          simp [hg, hst, excIsOk]
  · intro hav hsok hfail
    rcases hg : getHistory env a with ⟨oh, a1⟩
    cases oh with
    | none =>
      refine ⟨attemptDelivery env (mkMsg a recipient content tid)
        { recipient := recipient, stored := false, delivered := none, error := none }, ?_, ?_⟩
      · simp [send, hav, hg]
      · exact attemptDelivery_fail env _ _ hfail
    | some u =>
      have hs : excIsOk (env.storeMessageResult (mkMsg a recipient content tid)) = true := by
        apply hsok
        simp [hg]
      cases hst : env.storeMessageResult (mkMsg a recipient content tid) with
      | ok n =>
        refine ⟨attemptDelivery env (mkMsg a recipient content tid)
          { recipient := recipient, stored := true, delivered := none, error := none }, ?_, ?_⟩
        · simp [send, hav, hg, hst]
        · exact attemptDelivery_fail env _ _ hfail
      | error e =>
        rw [hst] at hs
        simp [excIsOk] at hs

/-- Closed witness for C1 at a concrete input: collaborator importable,
history present, persistence succeeding, transport missing — the result is
returned with `stored=true` and `delivered=false`. -/
theorem send_stored_iff_and_delivery_swallowed_witness :
    ∃ r : SendResult,
      (send { envFull with skchatTransportAvailable := false }
        (mkAgent "A" "h") "p" "hi" none).1 = .ok r ∧
      r.delivered = some false :=
  (send_stored_iff_and_delivery_swallowed
      { envFull with skchatTransportAvailable := false }
      (mkAgent "A" "h") "p" "hi" none).2.2
    (by rfl) (fun _ => by rfl) (by rfl)

/-- A concrete agent that already holds a memory handle. -/
def agentWithStore : AgentState :=
  { mkAgent "A" "h" with memoryStore := some MemoryStore.fresh }

/-- C3: `status()` never raises; it reports the in-memory fields (name, home,
initialized flag, identity) and classifies memory as active / error /
unavailable according to the one-record probe; the only state change is the
lazy acquisition of the memory handle performed in order to probe it — when
the handle already exists the state is returned untouched. -/
theorem status_never_raises_and_classifies (env : Env) (a : AgentState) :
    excIsOk (statusAgent env a).1 = true ∧
    (∀ r : StatusResult, (statusAgent env a).1 = .ok r →
      r.name = a.name ∧ r.home = a.home ∧ r.initialized = a.initialized ∧
      r.version = "0.1.0" ∧
      r.identity = (if a.identity.isSome then "active" else "none") ∧
      r.fingerprint.isSome = a.identity.isSome ∧
      r.memory = (if ((getMemory env a).1).isSome then
          (if excIsOk env.listMemoriesResult then "active" else "error")
        else "unavailable")) ∧
    ((statusAgent env a).2.name = a.name ∧
     (statusAgent env a).2.home = a.home ∧
     (statusAgent env a).2.identity = a.identity ∧
     (statusAgent env a).2.initialized = a.initialized ∧
     (statusAgent env a).2.history = a.history ∧
     (statusAgent env a).2.histCreations = a.histCreations) ∧
    (a.memoryStore.isSome = true → (statusAgent env a).2 = a) := by
  have hst := getMemory_state env a
  refine ⟨?_, ?_, ?_, ?_⟩
  · rcases hg : getMemory env a with ⟨m, a1⟩
    cases hid : a.identity <;> cases m <;>
      cases hl : env.listMemoriesResult <;>
      simp [statusAgent, hid, hg, hl, excIsOk]
  · intro r hr
    rcases hg : getMemory env a with ⟨m, a1⟩
    cases hid : a.identity <;> cases m <;> cases hl : env.listMemoriesResult <;>
      (simp only [statusAgent, hid, hg, hl] at hr
       injection hr with h2
       subst h2
       simp [hid, hg, hl, excIsOk])
  · rw [statusAgent_state_eq]
    exact ⟨hst.1, hst.2.1, hst.2.2.1, hst.2.2.2.1, hst.2.2.2.2.1, hst.2.2.2.2.2.1⟩
  · intro hm
    rw [statusAgent_state_eq]
    rw [getMemory_unchanged_of_isSome env a hm]

/-- Closed witness for C3 at a concrete input: a memoized handle means the
state is returned untouched, and a successful probe classifies memory as
active. -/
theorem status_never_raises_and_classifies_witness :
    (statusAgent envFull agentWithStore).2 = agentWithStore ∧
    ({ name := "A", home := "h", initialized := false, version := "0.1.0",
       fingerprint := none, identity := "none",
       memory := "active" } : StatusResult).memory =
      (if ((getMemory envFull agentWithStore).1).isSome then
        (if excIsOk envFull.listMemoriesResult then "active" else "error")
      else "unavailable") :=
  ⟨(status_never_raises_and_classifies envFull agentWithStore).2.2.2 (by rfl),
   ((status_never_raises_and_classifies envFull agentWithStore).2.1
     { name := "A", home := "h", initialized := false, version := "0.1.0",
       fingerprint := none, identity := "none", memory := "active" }
     (by rfl)).2.2.2.2.2.2⟩

set_option maxRecDepth 8000 in
/-- C4: the scenario from the spec — a fresh `Agent("Bot")` with memory
available, `remember("hello world", tags=["t"])` then `recall("hello")` —
returns the one-element list whose single hit has the fixed projected shape
(id, title, content, tags, intensity) and whose content contains "hello". -/
theorem remember_then_recall_scenario :
    (recallAgent envFull
        (remember envFull (mkAgent "Bot" "~/.skcapstone") "hello world" "" ["t"] 0).2
        "hello" 5).1 =
      [{ id := 0, title := "hello world", content := "hello world",
         tags := ["t"], intensity := 0 }] ∧
    (∃ hit ∈ (recallAgent envFull
        (remember envFull (mkAgent "Bot" "~/.skcapstone") "hello world" "" ["t"] 0).2
        "hello" 5).1, containsSubstring hit.content "hello" = true) := by
  constructor
  · rfl
  · decide

/-- C6: with the memory collaborator available the handle is always obtained,
and `remember` stores a record whose title is the given title or the first 60
characters of the content when none is given, attaches an emotional
annotation exactly when the intensity is strictly positive, appends the
record to the store, and returns the new record's identifier; it returns
`None` exactly when the handle is absent and the collaborator is
unavailable. -/
theorem remember_title_emotional_id (env : Env) (a : AgentState)
    (content title : String) (tags : List String) (intensity : Rat) :
    (env.skmemoryAvailable = true → ((getMemory env a).1).isSome = true) ∧
    (∀ s : MemoryStore, (getMemory env a).1 = some s →
      env.skmemoryAvailable = true →
      ∃ r : MemRecord,
        (remember env a content title tags intensity).1 = .ok (some r.id) ∧
        (remember env a content title tags intensity).2.memoryStore =
          some { records := s.records ++ [r], nextId := s.nextId + 1 } ∧
        r.id = s.nextId ∧
        r.title = (if title = "" then content.take 60 else title) ∧
        r.content = content ∧ r.tags = tags ∧
        (r.emotionalAttached = true ↔ 0 < intensity)) ∧
    ((remember env a content title tags intensity).1 = .ok none ↔
      (a.memoryStore = none ∧ env.skmemoryAvailable = false)) := by
  refine ⟨?_, ?_, ?_⟩
  · intro hav
    rw [getMemory_isSome_iff, hav]
    simp
  · intro s hs hav
    rcases hg : getMemory env a with ⟨m, a1⟩
    rw [hg] at hs
    simp only at hs
    subst hs
    refine ⟨{ id := s.nextId,
              title := if title = "" then content.take 60 else title,
              content := content, tags := tags,
              emotionalAttached := (if 0 < intensity then some intensity else none).isSome,
              emotionalIntensity := (if 0 < intensity then some intensity else none).getD 0,
              source := "sdk" }, ?_, ?_, rfl, rfl, rfl, rfl, ?_⟩
    · simp [remember, hg, hav, MemoryStore.snapshot]
    · simp [remember, hg, hav, MemoryStore.snapshot]
    · by_cases hi : 0 < intensity <;> simp [hi]
  · rcases hm : a.memoryStore with _ | s
    · cases hav : env.skmemoryAvailable
      · simp [remember, getMemory, initMemory, hm, hav]
      · simp [remember, getMemory, initMemory, hm, hav, MemoryStore.snapshot]
    · cases hav : env.skmemoryAvailable
      · simp [remember, getMemory, hm, hav]
      · simp [remember, getMemory, hm, hav, MemoryStore.snapshot]

/-- Closed witness for C6 at a concrete input: a fresh agent with skmemory
available remembering "x" with no title and intensity 5. -/
theorem remember_title_emotional_id_witness :
    ∃ r : MemRecord,
      (remember envFull (mkAgent "A" "h") "x" "" [] 5).1 = .ok (some r.id) ∧
      (remember envFull (mkAgent "A" "h") "x" "" [] 5).2.memoryStore =
        some { records := MemoryStore.fresh.records ++ [r],
               nextId := MemoryStore.fresh.nextId + 1 } ∧
      r.id = MemoryStore.fresh.nextId ∧
      r.title = (if "" = "" then String.take "x" 60 else "") ∧
      r.content = "x" ∧ r.tags = ([] : List String) ∧
      (r.emotionalAttached = true ↔ (0 : Rat) < 5) :=
  (remember_title_emotional_id envFull (mkAgent "A" "h") "x" "" [] 5).2.1
    MemoryStore.fresh (by rfl) (by rfl)

/-- C9: every call to `init` performs the home-directory creation (with
parents) first, before anything depends on a collaborator; and when neither
the identity nor the memory collaborator is importable it is the only side
effect performed — so no other side effect of `init` is unconditional. -/
theorem init_home_dir_only_unconditional_effect (env : Env) (a : AgentState)
    (email passphrase entityType : String) :
    (initAgent env a email passphrase entityType).2.2.head? = some Effect.mkdirHome ∧
    (env.capauthAvailable = false → env.skmemoryAvailable = false →
      (initAgent env a email passphrase entityType).2.2 = [Effect.mkdirHome]) := by
  constructor
  · rcases hid : initIdentity env a passphrase with ⟨res, a1, effs⟩
    cases res with
    | error e => simp [initAgent, hid]
    | ok s =>
      cases hs : env.skmemoryAvailable <;>
        simp [initAgent, initMemory, hid, hs]
  · intro hc hs
    have hid : initIdentity env a passphrase = (.ok "capauth not installed", a, []) := by
      simp [initIdentity, hc]
    simp [initAgent, initMemory, hid, hs]

/-- Closed witness for C9 at a concrete input: with no collaborator present,
the effect trace of `init` is exactly the home-directory
creation. -/
theorem init_home_dir_only_unconditional_effect_witness :
    (initAgent envNone (mkAgent "A" "h") "" "" "ai").2.2 = [Effect.mkdirHome] :=
  (init_home_dir_only_unconditional_effect envNone (mkAgent "A" "h") "" "" "ai").2
    (by rfl) (by rfl)

/-- C8: each standalone quick-start function raises an explicit
dependency-required import failure when its required collaborator package is
not importable — the failure is propagated, not degraded to an empty or null
result. -/
theorem quick_functions_require_dependencies (env : Env)
    (name email passphrase entityType home content title query
      recipient msgContent sender : String)
    (tags : List String) (disk : Option MemoryStore) (store0 : MemoryStore)
    (limit : Nat) (tid : Option String) :
    (env.capauthAvailable = false →
      createIdentity env name email passphrase entityType =
        .error (.importError "capauth is required: pip install capauth")) ∧
    (env.capauthAvailable = false →
      loadIdentity env home =
        .error (.importError "capauth is required: pip install capauth")) ∧
    (env.skmemoryAvailable = false →
      storeMemory env store0 content title tags =
        .error (.importError "skmemory is required: pip install skmemory")) ∧
    (env.skmemoryAvailable = false →
      recallMemory env disk query limit =
        .error (.importError "skmemory is required: pip install skmemory")) ∧
    ((env.skchatModelsAvailable && env.skchatHistoryAvailable &&
        env.skmemoryAvailable) = false →
      sendMessageQuick env recipient msgContent sender tid =
        .error (.importError "skchat and skmemory are required")) := by
  refine ⟨?_, ?_, ?_, ?_, ?_⟩
  · intro h; simp [createIdentity, h]
  · intro h; simp [loadIdentity, h]
  · intro h; simp [storeMemory, h]
  · intro h; simp [recallMemory, h]
  · intro h; simp [sendMessageQuick, h]

/-- Closed witness for C8 at a concrete input: with no collaborator present,
all five quick-start functions raise their dependency-required
failures. -/
theorem quick_functions_require_dependencies_witness :
    createIdentity envNone "A" "" "" "ai" =
      .error (.importError "capauth is required: pip install capauth") ∧
    loadIdentity envNone "~/.capauth" =
      .error (.importError "capauth is required: pip install capauth") ∧
    storeMemory envNone MemoryStore.fresh "c" "" [] =
      .error (.importError "skmemory is required: pip install skmemory") ∧
    recallMemory envNone none "q" 5 =
      .error (.importError "skmemory is required: pip install skmemory") ∧
    sendMessageQuick envNone "p" "hi" "local" none =
      .error (.importError "skchat and skmemory are required") :=
  ⟨(quick_functions_require_dependencies envNone "A" "" "" "ai" "~/.capauth" "c" ""
      "q" "p" "hi" "local" [] none MemoryStore.fresh 5 none).1 (by rfl),
   (quick_functions_require_dependencies envNone "A" "" "" "ai" "~/.capauth" "c" ""
      "q" "p" "hi" "local" [] none MemoryStore.fresh 5 none).2.1 (by rfl),
   (quick_functions_require_dependencies envNone "A" "" "" "ai" "~/.capauth" "c" ""
      "q" "p" "hi" "local" [] none MemoryStore.fresh 5 none).2.2.1 (by rfl),
   (quick_functions_require_dependencies envNone "A" "" "" "ai" "~/.capauth" "c" ""
      "q" "p" "hi" "local" [] none MemoryStore.fresh 5 none).2.2.2.1 (by rfl),
   (quick_functions_require_dependencies envNone "A" "" "" "ai" "~/.capauth" "c" ""
      "q" "p" "hi" "local" [] none MemoryStore.fresh 5 none).2.2.2.2 (by rfl)⟩

/-- `envFull` except that probing the memory store raises. -/
def envProbeErr : Env :=
  { envFull with listMemoriesResult := .error (.runtimeError "db locked") }

/-- C2 counterexample: with the messaging collaborator importable and a
history handle present, a non-import exception raised by
`history.store_message` during `send` propagates to the caller instead of
being folded into an in-band result. -/
theorem send_store_failure_propagates_cex :
    (send envStoreBoom (mkAgent "A" "h") "p" "hi" none).1 =
      .error (.runtimeError "boom") := by
  rfl

/-- C2 amended: failures raised during the delivery attempt of `send` and
during the `status` memory probe are caught at the point of use and folded
into in-band results (`delivered=False`, `memory="error"`); but a non-import
exception raised by `history.store_message` during `send` propagates to the
caller (an import failure there is caught by the outer handler instead). -/
theorem collaborator_failure_handling_amended (env : Env) (a : AgentState)
    (recipient content : String) (tid : Option String) :
    (env.skchatModelsAvailable = true →
      ((getHistory env a).1.isSome = true →
        excIsOk (env.storeMessageResult (mkMsg a recipient content tid)) = true) →
      deliveryFails env (mkMsg a recipient content tid) = true →
      ∃ r : SendResult, (send env a recipient content tid).1 = .ok r ∧
        r.delivered = some false) ∧
    (excIsOk (statusAgent env a).1 = true) ∧
    (∀ r : StatusResult, (statusAgent env a).1 = .ok r →
      ((getMemory env a).1).isSome = true →
      excIsOk env.listMemoriesResult = false → r.memory = "error") ∧
    (∀ e : Exc, env.skchatModelsAvailable = true →
      (getHistory env a).1.isSome = true →
      env.storeMessageResult (mkMsg a recipient content tid) = .error e →
      e.isImportError = false →
      (send env a recipient content tid).1 = .error e) := by
  refine ⟨?_, ?_, ?_, ?_⟩
  · intro hav hsok hfail
    rcases hg : getHistory env a with ⟨oh, a1⟩
    cases oh with
    | none =>
      refine ⟨attemptDelivery env (mkMsg a recipient content tid)
        { recipient := recipient, stored := false, delivered := none,
          error := none }, ?_, ?_⟩
      · simp [send, hav, hg]
      · exact attemptDelivery_fail env _ _ hfail
    | some u =>
      have hs : excIsOk (env.storeMessageResult (mkMsg a recipient content tid)) = true := by
        apply hsok
        simp [hg]
      cases hst : env.storeMessageResult (mkMsg a recipient content tid) with
      | ok n =>
        refine ⟨attemptDelivery env (mkMsg a recipient content tid)
          { recipient := recipient, stored := true, delivered := none,
            error := none }, ?_, ?_⟩
        · simp [send, hav, hg, hst]
        · exact attemptDelivery_fail env _ _ hfail
      | error e =>
        rw [hst] at hs
        simp [excIsOk] at hs
  · rcases hg : getMemory env a with ⟨m, a1⟩
    cases hid : a.identity <;> cases m <;>
      cases hl : env.listMemoriesResult <;>
      simp [statusAgent, hid, hg, hl, excIsOk]
  · intro r hr hm hl
    rcases hg : getMemory env a with ⟨m, a1⟩
    rw [hg] at hm
    cases m with
    | none => simp at hm
    | some s =>
      cases hle : env.listMemoriesResult with
      | ok v => rw [hle] at hl; simp [excIsOk] at hl
      | error e =>
        cases hid : a.identity <;>
          (simp only [statusAgent, hid, hg, hle] at hr
           injection hr with h2
           subst h2
           rfl)
  · intro e hav hh hst hie
    rcases hg : getHistory env a with ⟨oh, a1⟩
    rw [hg] at hh
    cases oh with
    | none => simp at hh
    | some u => simp [send, hav, hg, hst, hie]

/-- Closed witness for the C2 amended theorem at concrete inputs: a probe
error is reported as `memory="error"`, and a non-import `store_message`
failure propagates out of `send`. -/
theorem collaborator_failure_handling_amended_witness :
    ({ name := "A", home := "h", initialized := false, version := "0.1.0",
       fingerprint := none, identity := "none",
       memory := "error" } : StatusResult).memory = "error" ∧
    (send envStoreBoom (mkAgent "A" "h") "p" "hi" none).1 =
      .error (.runtimeError "boom") :=
  ⟨(collaborator_failure_handling_amended envProbeErr (mkAgent "A" "h")
      "p" "hi" none).2.2.1
      { name := "A", home := "h", initialized := false, version := "0.1.0",
        fingerprint := none, identity := "none", memory := "error" }
      (by rfl) (by rfl) (by rfl),
   (collaborator_failure_handling_amended envStoreBoom (mkAgent "A" "h")
      "p" "hi" none).2.2.2 (.runtimeError "boom") (by rfl) (by rfl) (by rfl) (by rfl)⟩

/-- C5 counterexample: with capauth importable, no loadable profile, a
passphrase given and profile creation raising a non-import exception, `init`
propagates the exception — it returns no mapping and the agent is not marked
initialized. -/
theorem init_raises_on_identity_creation_error_cex :
    (initAgent envKeygenFails (mkAgent "A" "h") "e@x" "pw" "ai").1 =
      .error (.runtimeError "keygen failed") ∧
    (initAgent envKeygenFails (mkAgent "A" "h") "e@x" "pw" "ai").2.1.initialized
      = false := by
  constructor <;> rfl

/-- C5 amended: provided any failure of the identity-creation call is
an import failure (a non-import exception raised while creating the identity
propagates and leaves the agent unmarked), `init` marks the agent initialized
and returns a mapping with the agent's name and home and a per-subsystem
outcome string drawn from the documented sets. -/
theorem init_best_effort_amended (env : Env) (a : AgentState)
    (email passphrase entityType : String)
    (hid : env.capauthAvailable = true →
      excIsOk env.loadProfileResult = true ∨ passphrase = "" ∨
        excOkOrImport env.initProfileResult = true) :
    ∃ r : InitResult,
      (initAgent env a email passphrase entityType).1 = .ok r ∧
      r.name = a.name ∧ r.home = a.home ∧
      (r.identity = "loaded" ∨ r.identity = "created" ∨
       r.identity = "skipped (no passphrase)" ∨
       r.identity = "capauth not installed") ∧
      (r.memory = "ready" ∨ r.memory = "skmemory not installed") ∧
      (initAgent env a email passphrase entityType).2.1.initialized = true := by
  have hmem : ∀ (idStatus : String) (a1 : AgentState) (effs : List Effect),
      initIdentity env a passphrase = (.ok idStatus, a1, effs) →
      a1.name = a.name → a1.home = a.home →
      ∃ r : InitResult,
        (initAgent env a email passphrase entityType).1 = .ok r ∧
        r.name = a.name ∧ r.home = a.home ∧
        r.identity = idStatus ∧
        (r.memory = "ready" ∨ r.memory = "skmemory not installed") ∧
        (initAgent env a email passphrase entityType).2.1.initialized = true := by
    intro idStatus a1 effs hEq hn hh
    cases hs : env.skmemoryAvailable
    · exact ⟨{ name := a1.name, home := a1.home, identity := idStatus,
               memory := "skmemory not installed" },
        by simp [initAgent, initMemory, hEq, hs],
        hn, hh, rfl, Or.inr rfl,
        by simp [initAgent, initMemory, hEq, hs]⟩
    · exact ⟨{ name := a1.name, home := a1.home, identity := idStatus,
               memory := "ready" },
        by simp [initAgent, initMemory, hEq, hs],
        hn, hh, rfl, Or.inl rfl,
        by simp [initAgent, initMemory, hEq, hs]⟩
  cases hc : env.capauthAvailable
  · obtain ⟨r, h1, h2, h3, h4, h5, h6⟩ :=
      hmem "capauth not installed" a [] (by simp [initIdentity, hc]) rfl rfl
    exact ⟨r, h1, h2, h3, by rw [h4]; right; right; right; rfl, h5, h6⟩
  · rcases hid hc with hl | hp | hi
    · cases hlp : env.loadProfileResult with
      | error e => rw [hlp] at hl; simp [excIsOk] at hl
      | ok p =>
        obtain ⟨r, h1, h2, h3, h4, h5, h6⟩ :=
          hmem "loaded" { a with identity := some (profileToIdentity p) }
            [.loadProfileCall] (by simp [initIdentity, hc, hlp]) rfl rfl
        exact ⟨r, h1, h2, h3, by rw [h4]; left; rfl, h5, h6⟩
    · cases hlp : env.loadProfileResult with
      | ok p =>
        obtain ⟨r, h1, h2, h3, h4, h5, h6⟩ :=
          hmem "loaded" { a with identity := some (profileToIdentity p) }
            [.loadProfileCall] (by simp [initIdentity, hc, hlp]) rfl rfl
        exact ⟨r, h1, h2, h3, by rw [h4]; left; rfl, h5, h6⟩
      | error e =>
        obtain ⟨r, h1, h2, h3, h4, h5, h6⟩ :=
          hmem "skipped (no passphrase)" a [.loadProfileCall]
            (by simp [initIdentity, hc, hlp, hp]) rfl rfl
        exact ⟨r, h1, h2, h3, by rw [h4]; right; right; left; rfl, h5, h6⟩
    · cases hlp : env.loadProfileResult with
      | ok p =>
        obtain ⟨r, h1, h2, h3, h4, h5, h6⟩ :=
          hmem "loaded" { a with identity := some (profileToIdentity p) }
            [.loadProfileCall] (by simp [initIdentity, hc, hlp]) rfl rfl
        exact ⟨r, h1, h2, h3, by rw [h4]; left; rfl, h5, h6⟩
      | error e1 =>
        by_cases hp : passphrase = ""
        · obtain ⟨r, h1, h2, h3, h4, h5, h6⟩ :=
            hmem "skipped (no passphrase)" a [.loadProfileCall]
              (by simp [initIdentity, hc, hlp, hp]) rfl rfl
          exact ⟨r, h1, h2, h3, by rw [h4]; right; right; left; rfl, h5, h6⟩
        · cases hip : env.initProfileResult with
          | ok p =>
            obtain ⟨r, h1, h2, h3, h4, h5, h6⟩ :=
              hmem "created" { a with identity := some (profileToIdentity p) }
                [.loadProfileCall, .initProfileCall]
                (by simp [initIdentity, hc, hlp, hp, hip]) rfl rfl
            exact ⟨r, h1, h2, h3, by rw [h4]; right; left; rfl, h5, h6⟩
          | error e =>
            rw [hip] at hi
            have hie : e.isImportError = true := by
              simpa [excOkOrImport] using hi
            obtain ⟨r, h1, h2, h3, h4, h5, h6⟩ :=
              hmem "capauth not installed" a [.loadProfileCall, .initProfileCall]
                (by simp [initIdentity, hc, hlp, hp, hip, hie]) rfl rfl
            exact ⟨r, h1, h2, h3, by rw [h4]; right; right; right; rfl, h5, h6⟩

/-- Closed witness for the C5 amended theorem at a concrete input: no
collaborator importable, and `init` still returns its best-effort summary and
marks the agent initialized. -/
theorem init_best_effort_amended_witness :
    ∃ r : InitResult,
      (initAgent envNone (mkAgent "A" "h") "" "" "ai").1 = .ok r ∧
      r.name = (mkAgent "A" "h").name ∧ r.home = (mkAgent "A" "h").home ∧
      (r.identity = "loaded" ∨ r.identity = "created" ∨
       r.identity = "skipped (no passphrase)" ∨
       r.identity = "capauth not installed") ∧
      (r.memory = "ready" ∨ r.memory = "skmemory not installed") ∧
      (initAgent envNone (mkAgent "A" "h") "" "" "ai").2.1.initialized = true :=
  init_best_effort_amended envNone (mkAgent "A" "h") "" "" "ai" (by decide)

/-- C7 counterexample: `init` is a public operation and constructs the memory
store eagerly through `_init_memory`, so after a first `init` has left the
memory handle non-null, a second `init` constructs a second store — two
constructor calls over the sequence, against the claimed at-most-one. -/
theorem double_init_recreates_memory_cex :
    (run envFull (mkAgent "A" "h") [Op.init "" "" "ai"]).memoryStore.isSome
      = true ∧
    (run envFull (mkAgent "A" "h")
      [Op.init "" "" "ai", Op.init "" "" "ai"]).memCreations = 2 := by
  constructor <;> rfl

/-- A concrete agent that already holds both handles. -/
def agentBoth : AgentState :=
  { agentWithStore with history := some () }

/-- C7 amended: across every sequence of public operations the history handle
is created at most once and, once non-null, is reused and never rebuilt; the
memory handle enjoys the same property across the lazily-creating operations
(remember, recall, send, receive, status) — but `init` constructs the memory
store eagerly, replacing any existing handle whenever the identity branch
completes and the memory collaborator is importable, so a sequence containing
a second completed `init` constructs it again. -/
theorem handles_memoized_amended (env : Env) (a : AgentState) (ops : List Op) :
    ((run env a ops).histCreations ≤
      a.histCreations + (if a.history.isSome then 0 else 1)) ∧
    (∀ u : Unit, a.history = some u → (run env a ops).history = some u) ∧
    ((∀ op ∈ ops, op.isInit = false) →
      (run env a ops).memCreations ≤
        a.memCreations + (if a.memoryStore.isSome then 0 else 1)) ∧
    (a.memoryStore.isSome = true → (run env a ops).memoryStore.isSome = true) ∧
    (∀ email passphrase entityType : String,
      env.skmemoryAvailable = true →
      excIsOk (initIdentity env a passphrase).1 = true →
      (initAgent env a email passphrase entityType).2.1.memCreations =
        a.memCreations + 1) := by
  refine ⟨?_, ?_, ?_, ?_, ?_⟩
  · calc (run env a ops).histCreations
        ≤ histPotential (run env a ops) := Nat.le_add_right _ _
      _ ≤ histPotential a := run_histPotential_le env ops a
      _ = a.histCreations + (if a.history.isSome then 0 else 1) := rfl
  · exact fun u hu => run_histSome env ops a u hu
  · intro hno
    calc (run env a ops).memCreations
        ≤ memPotential (run env a ops) := Nat.le_add_right _ _
      _ ≤ memPotential a := run_memPotential_le env ops hno a
      _ = a.memCreations + (if a.memoryStore.isSome then 0 else 1) := rfl
  · exact fun hm => run_memSome env ops a hm
  · intro email passphrase entityType hs hok
    rcases hEq : initIdentity env a passphrase with ⟨res, a1, effs⟩
    have hsh := initIdentity_state_shape env a passphrase
    rw [hEq] at hsh
    simp only at hsh
    have hmc : a1.memCreations = a.memCreations := by
      rcases hsh with h | ⟨ident, h⟩ <;> rw [h]
    rw [hEq] at hok
    cases res with
    | error e => simp [excIsOk] at hok
    | ok s => simp [initAgent, initMemory, hEq, hs, hmc]

/-- Closed witness for the C7 amended theorem at concrete inputs: an agent
holding both handles runs a status and a send without any new construction,
and a completed `init` constructs a fresh store. -/
theorem handles_memoized_amended_witness :
    ((run envFull agentBoth [Op.status, Op.send "p" "hi" none]).histCreations ≤
      agentBoth.histCreations + (if agentBoth.history.isSome then 0 else 1)) ∧
    (run envFull agentBoth [Op.status, Op.send "p" "hi" none]).history
      = some () ∧
    ((run envFull agentBoth [Op.status, Op.send "p" "hi" none]).memCreations ≤
      agentBoth.memCreations + (if agentBoth.memoryStore.isSome then 0 else 1)) ∧
    (run envFull agentBoth
      [Op.status, Op.send "p" "hi" none]).memoryStore.isSome = true ∧
    (initAgent envFull agentBoth "" "" "ai").2.1.memCreations =
      agentBoth.memCreations + 1 :=
  ⟨(handles_memoized_amended envFull agentBoth [Op.status, Op.send "p" "hi" none]).1,
   (handles_memoized_amended envFull agentBoth
      [Op.status, Op.send "p" "hi" none]).2.1 () (by rfl),
   (handles_memoized_amended envFull agentBoth
      [Op.status, Op.send "p" "hi" none]).2.2.1 (by decide),
   (handles_memoized_amended envFull agentBoth
      [Op.status, Op.send "p" "hi" none]).2.2.2.1 (by rfl),
   (handles_memoized_amended envFull agentBoth
      [Op.status, Op.send "p" "hi" none]).2.2.2.2 "" "" "ai" (by rfl) (by rfl)⟩

end SovereignAgent
